import Mathlib

set_option maxRecDepth 4000

/-!
Verification development for the shoe-tracker aggregation engine
(`src/shoe_tracker/analyzer.py`).

The Python floats are modelled as exact rationals (`ℚ`), timestamps as a
calendar structure, pandas DataFrames as lists of normalized rows, and the
pandas `groupby`/`agg`/`sort_values` pipeline as an explicit group-by over
sorted, de-duplicated keys.  pandas `groupby` keeps its default
`dropna=True`: rows whose grouping key is null are dropped from the groups,
which the embedding reproduces by extracting keys with `Option`-valued key
functions.
-/

/-- A local civil timestamp (`start_date_local` of an activity). -/
structure DateTime where
  year : Nat
  month : Nat
  day : Nat
  hour : Nat
  minute : Nat
  second : Nat
deriving DecidableEq, Repr

/-- The shape of a raw Strava activity as consumed by
`ActivityAnalyzer._activities_to_dataframe`.  Per the input contract the
identifier is always present; every other field used by the analyzer is
optional. -/
structure RawActivity where
  id : Nat
  name : Option String
  type : Option String
  start_date_local : Option DateTime
  distance : Option ℚ
  moving_time : Option ℚ
  elapsed_time : Option ℚ
  total_elevation_gain : Option ℚ
  gear_id : Option String
deriving DecidableEq, Repr

/-- One row of the analyzer's DataFrame `self.df` after normalization,
including the date-derived bucket columns (which are null when the
timestamp is absent, mirroring `NaT`-derived `NaN`s). -/
structure Row where
  id : Nat
  name : Option String
  type : String
  date : Option DateTime
  distance_km : ℚ
  moving_time_hours : ℚ
  elapsed_time_hours : ℚ
  elevation_gain_m : ℚ
  gear_id : Option String
  year : Option Nat
  month : Option Nat
  week : Option Nat
  year_week : Option String
  year_month : Option String
deriving DecidableEq, Repr

/-! ### Calendar arithmetic

`df['date'].dt.year/.month`, `dt.isocalendar().week`, and
`dt.strftime('%Y-W%U')` / `dt.strftime('%Y-%m')` from the normalizer. -/

/-- Gregorian leap-year test. -/
def isLeap (y : Nat) : Bool :=
  (y % 4 == 0 && y % 100 != 0) || (y % 400 == 0)

/-- Days in the year strictly before month `m` (1-based). -/
def daysBeforeMonth (leap : Bool) (m : Nat) : Nat :=
  [0, 31, 59, 90, 120, 151, 181, 212, 243, 273, 304, 334].getD (m - 1) 0
    + (if leap && decide (2 < m) then 1 else 0)

/-- One-based ordinal day of the year. -/
def dayOfYear (d : DateTime) : Nat :=
  daysBeforeMonth (isLeap d.year) d.month + d.day

/-- Day of week, 0 = Sunday, via Sakamoto's method. -/
def weekdaySun0 (y m day : Nat) : Nat :=
  let t := [0, 3, 2, 5, 0, 3, 5, 1, 4, 6, 2, 4]
  let yy := if m < 3 then y - 1 else y
  (yy + yy / 4 - yy / 100 + yy / 400 + t.getD (m - 1) 0 + day) % 7

/-- US week-of-year, the `%U` directive of `strftime`: week 1 starts at the
first Sunday of the year, days before it are week 0. -/
def uWeek (d : DateTime) : Nat :=
  (dayOfYear d - 1 + 7 - weekdaySun0 d.year d.month d.day) / 7

/-- ISO weekday, Monday = 1 .. Sunday = 7. -/
def isoWeekday (d : DateTime) : Nat :=
  let w := weekdaySun0 d.year d.month d.day
  if w = 0 then 7 else w

/-- Number of ISO weeks (52 or 53) in year `y`. -/
def isoWeeksInYear (y : Nat) : Nat :=
  let p := fun (yy : Nat) => (yy + yy / 4 - yy / 100 + yy / 400) % 7
  if p y = 4 ∨ p (y - 1) = 3 then 53 else 52

/-- ISO-8601 week number, as `Series.dt.isocalendar().week`. -/
def isoWeek (d : DateTime) : Nat :=
  let w := (dayOfYear d + 10 - isoWeekday d) / 7
  if w = 0 then isoWeeksInYear (d.year - 1)
  else if w = 53 ∧ isoWeeksInYear d.year ≠ 53 then 1
  else w

/-- Zero-pad a number to two digits, as the `%U` / `%m` directives do. -/
def pad2 (n : Nat) : String :=
  if n < 10 then "0" ++ toString n else toString n

/-- The `strftime('%Y-W%U')` label. -/
def fmtYearWeek (d : DateTime) : String :=
  toString d.year ++ "-W" ++ pad2 (uWeek d)

/-- The `strftime('%Y-%m')` label. -/
def fmtYearMonth (d : DateTime) : String :=
  toString d.year ++ "-" ++ pad2 d.month

/-! ### Orderings used by pandas sorts -/

/-- Lexicographic order on code points, the order Python/pandas use to
compare strings. -/
def chLe : List Char → List Char → Bool
  | [], _ => true
  | _ :: _, [] => false
  | a :: as, b :: bs =>
    if a.toNat < b.toNat then true
    else if b.toNat < a.toNat then false
    else chLe as bs

/-- String comparison used when pandas sorts string keys. -/
def strLe (a b : String) : Bool := chLe a.data b.data

/-- Mixed-radix key giving the chronological order of calendar-valid
timestamps; radices exceed every valid field value. -/
def dtKey (d : DateTime) : Nat :=
  ((((d.year * 13 + d.month) * 32 + d.day) * 25 + d.hour) * 61 + d.minute) * 61
    + d.second

/-- Sort with a boolean comparator (pandas `sort_values` / sorted group
keys), realized as a stable insertion sort. -/
def sortB {α : Type} (leB : α → α → Bool) (l : List α) : List α :=
  List.insertionSort (fun a b => leB a b = true) l

theorem sortB_perm {α : Type} (leB : α → α → Bool) (l : List α) :
    List.Perm (sortB leB l) l :=
  List.perm_insertionSort _ l

theorem sortB_sorted {α : Type} (leB : α → α → Bool)
    (hto : ∀ a b, leB a b = true ∨ leB b a = true)
    (htr : ∀ a b c, leB a b = true → leB b c = true → leB a c = true)
    (l : List α) : List.Sorted (fun a b => leB a b = true) (sortB leB l) := by
  haveI : IsTotal α (fun a b => leB a b = true) := ⟨hto⟩
  haveI : IsTrans α (fun a b => leB a b = true) := ⟨htr⟩
  exact List.sorted_insertionSort _ l

example : sortB strLe ["b", "a"] = ["a", "b"] := by decide

example : sortB strLe ["2024-W02", "2024-W01"] = ["2024-W01", "2024-W02"] := by
  decide

example : fmtYearWeek ⟨2024, 1, 15, 10, 0, 0⟩ = "2024-W02" := by decide

/-! ### Rounding

pandas `Series.round(2)` rounds half to even on each value. -/

/-- Round a rational to the nearest integer, ties to even. -/
def roundHalfEven (q : ℚ) : ℤ :=
  let f : ℤ := q.floor
  let r : ℚ := q - (f : ℚ)
  if r < 1 / 2 then f
  else if 1 / 2 < r then f + 1
  else if f % 2 = 0 then f else f + 1

/-- The `.round(2)` applied to every summed output column. -/
def round2 (q : ℚ) : ℚ := (roundHalfEven (100 * q) : ℚ) / 100

example : round2 (12345 / 1000) = 1234 / 100 := by with_unfolding_all decide
example : round2 (12355 / 1000) = 1236 / 100 := by with_unfolding_all decide
example : round2 10 = 10 := by with_unfolding_all decide

/-! ### Normalizer

`ActivityAnalyzer._activities_to_dataframe`: one record per activity, then
the date-derived columns.  The source guards the derived-column block with
`if not df.empty`, which is immaterial row-wise: an empty frame has no rows
to derive columns for. -/

/-- Normalization of one activity into one DataFrame row
(`analyzer.py` lines 30-50).  Python truthiness is preserved: an absent or
empty `type` becomes `"Unknown"`, an absent or empty `gear_id` becomes
null, absent numeric fields become `0` (a present `0` is also falsy in
Python, and maps to the same `0`). -/
def normalizeOne (a : RawActivity) : Row :=
  { id := a.id
    name := a.name
    type :=
      match a.type with
      | some t => if t = "" then "Unknown" else t
      | none => "Unknown"
    date := a.start_date_local
    distance_km := (a.distance.getD 0) / 1000
    moving_time_hours := (a.moving_time.getD 0) / 3600
    elapsed_time_hours := (a.elapsed_time.getD 0) / 3600
    elevation_gain_m := a.total_elevation_gain.getD 0
    gear_id :=
      match a.gear_id with
      | some g => if g = "" then none else some g
      | none => none
    year := a.start_date_local.map (fun d => d.year)
    month := a.start_date_local.map (fun d => d.month)
    week := a.start_date_local.map isoWeek
    year_week := a.start_date_local.map fmtYearWeek
    year_month := a.start_date_local.map fmtYearMonth }

/-- `ActivityAnalyzer._activities_to_dataframe`. -/
def activities_to_dataframe (acts : List RawActivity) : List Row :=
  acts.map normalizeOne

/-! ### Equipment name resolution

The `if gear_info: ... map/fillna ... else: ... lambda ...` block shared by
all four report methods.  Python's `if gear_info:` is a truthiness test:
both `None` and an empty dict select the synthesizing branch. -/

/-- The `lambda x: f'Shoe {x}' if x else 'No Shoe'` fallback. -/
def synthName (g : String) : String :=
  if g = "" then "No Shoe" else "Shoe " ++ g

/-- Truthiness of the optional `gear_info` dict. -/
def truthyDir : Option (List (String × String)) → Bool
  | none => false
  | some gi => !gi.isEmpty

/-- Name resolution applied to one (necessarily non-null, since pandas
dropped null keys) `gear_id` column value. -/
def resolveShoeName (gi : Option (List (String × String))) (g : String) :
    String :=
  if truthyDir gi then
    match (gi.getD []).lookup g with
    | some n => n
    | none => "Unknown Shoe"
  else synthName g

/-! ### Grouping keys

pandas `groupby` with its default `dropna=True` drops any row whose key
(or any level of a composite key) is null, and emits the groups with their
keys sorted ascending. -/

/-- Key of `groupby('gear_id')`. -/
def keyG (r : Row) : Option String := r.gear_id

/-- Key of `groupby(['year_week', 'gear_id'])`. -/
def keyW (r : Row) : Option (String × String) :=
  match r.year_week, r.gear_id with
  | some w, some g => some (w, g)
  | _, _ => none

/-- Key of `groupby(['year_month', 'gear_id'])`. -/
def keyM (r : Row) : Option (String × String) :=
  match r.year_month, r.gear_id with
  | some m, some g => some (m, g)
  | _, _ => none

/-- Key of `groupby(['year', 'gear_id'])`. -/
def keyY (r : Row) : Option (Nat × String) :=
  match r.year, r.gear_id with
  | some y, some g => some (y, g)
  | _, _ => none

/-- Ascending order on composite string keys. -/
def pairLeSS (a b : String × String) : Bool :=
  if a.1 = b.1 then strLe a.2 b.2 else strLe a.1 b.1

/-- Ascending order on (year, gear) keys. -/
def pairLeNS (a b : Nat × String) : Bool :=
  if a.1 = b.1 then strLe a.2 b.2 else decide (a.1 ≤ b.1)

/-! ### Report rows -/

/-- Output row of `get_shoe_summary` (after its final column selection,
which drops the aggregated-and-rounded `total_elapsed_time_hours`). -/
structure SummaryRow where
  shoe_name : String
  gear_id : String
  total_distance_km : ℚ
  total_moving_time_hours : ℚ
  total_elevation_gain_m : ℚ
  activity_count : Nat
deriving DecidableEq, Repr

/-- Output row of the weekly and monthly reports; `bucket` is the `week`
resp. `month` column. -/
structure PeriodRow where
  bucket : String
  shoe_name : String
  gear_id : String
  distance_km : ℚ
  moving_time_hours : ℚ
  elevation_gain_m : ℚ
  activity_count : Nat
deriving DecidableEq, Repr

/-- Output row of `get_yearly_report`. -/
structure YearRow where
  year : Nat
  shoe_name : String
  gear_id : String
  distance_km : ℚ
  moving_time_hours : ℚ
  elevation_gain_m : ℚ
  activity_count : Nat
deriving DecidableEq, Repr

/-- Output row of `get_activities_by_shoe` (the selected columns). -/
structure ActivityRow where
  date : Option DateTime
  name : Option String
  type : String
  distance_km : ℚ
  moving_time_hours : ℚ
  elevation_gain_m : ℚ
  gear_id : Option String
deriving DecidableEq, Repr

/-! ### Report methods -/

/-- The aggregated, name-resolved, rounded row of one `gear_id` group of
`get_shoe_summary`.  Since `id` is always present, `agg({'id': 'count'})`
is the group size. -/
def summaryRow (df : List Row) (gi : Option (List (String × String)))
    (g : String) : SummaryRow :=
  let grp := df.filter fun r => decide (keyG r = some g)
  { shoe_name := resolveShoeName gi g
    gear_id := g
    total_distance_km := round2 (grp.map (fun r => r.distance_km)).sum
    total_moving_time_hours :=
      round2 (grp.map (fun r => r.moving_time_hours)).sum
    total_elevation_gain_m :=
      round2 (grp.map (fun r => r.elevation_gain_m)).sum
    activity_count := grp.length }

/-- `ActivityAnalyzer.get_shoe_summary`. -/
def get_shoe_summary (df : List Row)
    (gear_info : Option (List (String × String))) : List SummaryRow :=
  if df.isEmpty then []
  else (sortB strLe (df.filterMap keyG).dedup).map (summaryRow df gear_info)

/-- One `(year_week, gear_id)` group row of `get_weekly_report`. -/
def weeklyRow (df : List Row) (gi : Option (List (String × String)))
    (k : String × String) : PeriodRow :=
  let grp := df.filter fun r => decide (keyW r = some k)
  { bucket := k.1
    shoe_name := resolveShoeName gi k.2
    gear_id := k.2
    distance_km := round2 (grp.map (fun r => r.distance_km)).sum
    moving_time_hours := round2 (grp.map (fun r => r.moving_time_hours)).sum
    elevation_gain_m := round2 (grp.map (fun r => r.elevation_gain_m)).sum
    activity_count := grp.length }

/-- Descending order on the bucket label column used by the final
`sort_values(..., ascending=False)` of the weekly and monthly reports. -/
def bucketDescB (a b : PeriodRow) : Bool := strLe b.bucket a.bucket

/-- `ActivityAnalyzer.get_weekly_report`. -/
def get_weekly_report (df : List Row)
    (gear_info : Option (List (String × String))) : List PeriodRow :=
  if df.isEmpty then []
  else
    sortB bucketDescB
      ((sortB pairLeSS (df.filterMap keyW).dedup).map (weeklyRow df gear_info))

/-- One `(year_month, gear_id)` group row of `get_monthly_report`. -/
def monthlyRow (df : List Row) (gi : Option (List (String × String)))
    (k : String × String) : PeriodRow :=
  let grp := df.filter fun r => decide (keyM r = some k)
  { bucket := k.1
    shoe_name := resolveShoeName gi k.2
    gear_id := k.2
    distance_km := round2 (grp.map (fun r => r.distance_km)).sum
    moving_time_hours := round2 (grp.map (fun r => r.moving_time_hours)).sum
    elevation_gain_m := round2 (grp.map (fun r => r.elevation_gain_m)).sum
    activity_count := grp.length }

/-- `ActivityAnalyzer.get_monthly_report`. -/
def get_monthly_report (df : List Row)
    (gear_info : Option (List (String × String))) : List PeriodRow :=
  if df.isEmpty then []
  else
    sortB bucketDescB
      ((sortB pairLeSS (df.filterMap keyM).dedup).map
        (monthlyRow df gear_info))

/-- One `(year, gear_id)` group row of `get_yearly_report`. -/
def yearlyRow (df : List Row) (gi : Option (List (String × String)))
    (k : Nat × String) : YearRow :=
  let grp := df.filter fun r => decide (keyY r = some k)
  { year := k.1
    shoe_name := resolveShoeName gi k.2
    gear_id := k.2
    distance_km := round2 (grp.map (fun r => r.distance_km)).sum
    moving_time_hours := round2 (grp.map (fun r => r.moving_time_hours)).sum
    elevation_gain_m := round2 (grp.map (fun r => r.elevation_gain_m)).sum
    activity_count := grp.length }

/-- Descending order on the `year` column. -/
def yearDescB (a b : YearRow) : Bool := decide (b.year ≤ a.year)

/-- `ActivityAnalyzer.get_yearly_report`. -/
def get_yearly_report (df : List Row)
    (gear_info : Option (List (String × String))) : List YearRow :=
  if df.isEmpty then []
  else
    sortB yearDescB
      ((sortB pairLeNS (df.filterMap keyY).dedup).map (yearlyRow df gear_info))

/-- Column selection of `get_activities_by_shoe`. -/
def projectActivity (r : Row) : ActivityRow :=
  { date := r.date
    name := r.name
    type := r.type
    distance_km := r.distance_km
    moving_time_hours := r.moving_time_hours
    elevation_gain_m := r.elevation_gain_m
    gear_id := r.gear_id }

/-- Truthiness of the optional `gear_id` argument (`if gear_id:`). -/
def truthyStr : Option String → Bool
  | none => false
  | some s => !(s == "")

/-- Descending order on the `date` column with nulls last, as
`sort_values('date', ascending=False)` places `NaT` at the end. -/
def dateDescB (a b : ActivityRow) : Bool :=
  match a.date, b.date with
  | some x, some y => decide (dtKey y ≤ dtKey x)
  | some _, none => true
  | none, some _ => false
  | none, none => true

/-- `ActivityAnalyzer.get_activities_by_shoe`. -/
def get_activities_by_shoe (df : List Row) (gear_id : Option String) :
    List ActivityRow :=
  if df.isEmpty then []
  else
    let result :=
      if truthyStr gear_id then df.filter (fun r => r.gear_id == gear_id)
      else df
    sortB dateDescB (result.map projectActivity)

/-! ### The analyzer object

`ActivityAnalyzer.__init__` stores the activities and the normalized frame;
each report method is embedded in state-passing form, returning its result
together with the analyzer state after the call.  No method body assigns to
`self`, so each returns the state it received. -/

/-- The analyzer's state: constructor arguments and the cached frame. -/
structure ActivityAnalyzer where
  activities : List RawActivity
  df : List Row
deriving DecidableEq, Repr

/-- `ActivityAnalyzer.__init__`. -/
def ActivityAnalyzer.init (acts : List RawActivity) : ActivityAnalyzer :=
  { activities := acts, df := activities_to_dataframe acts }

/-- `get_shoe_summary` as a call on the analyzer state. -/
def ActivityAnalyzer.shoeSummaryCall (a : ActivityAnalyzer)
    (gi : Option (List (String × String))) :
    List SummaryRow × ActivityAnalyzer :=
  (get_shoe_summary a.df gi, a)

/-- `get_weekly_report` as a call on the analyzer state. -/
def ActivityAnalyzer.weeklyCall (a : ActivityAnalyzer)
    (gi : Option (List (String × String))) :
    List PeriodRow × ActivityAnalyzer :=
  (get_weekly_report a.df gi, a)

/-- `get_monthly_report` as a call on the analyzer state. -/
def ActivityAnalyzer.monthlyCall (a : ActivityAnalyzer)
    (gi : Option (List (String × String))) :
    List PeriodRow × ActivityAnalyzer :=
  (get_monthly_report a.df gi, a)

/-- `get_yearly_report` as a call on the analyzer state. -/
def ActivityAnalyzer.yearlyCall (a : ActivityAnalyzer)
    (gi : Option (List (String × String))) :
    List YearRow × ActivityAnalyzer :=
  (get_yearly_report a.df gi, a)

/-- `get_activities_by_shoe` as a call on the analyzer state; the body
works on `self.df.copy()`, leaving the cached frame untouched. -/
def ActivityAnalyzer.activitiesByShoeCall (a : ActivityAnalyzer)
    (g : Option String) : List ActivityRow × ActivityAnalyzer :=
  (get_activities_by_shoe a.df g, a)

/-! ### Properties of the string order -/

theorem chLe_cons (a b : Char) (as bs : List Char) :
    chLe (a :: as) (b :: bs) = true ↔
      a.toNat < b.toNat ∨ (a.toNat = b.toNat ∧ chLe as bs = true) := by
  simp only [chLe]
  rcases Nat.lt_trichotomy a.toNat b.toNat with h | h | h
  · simp [h]
  · simp [h, lt_self_iff_false]
  · simp [Nat.lt_asymm h, h, (Nat.ne_of_lt h).symm]

theorem chLe_total : ∀ as bs : List Char, chLe as bs = true ∨ chLe bs as = true
  | [], _ => Or.inl rfl
  | _ :: _, [] => Or.inr rfl
  | a :: as, b :: bs => by
    rw [chLe_cons, chLe_cons]
    rcases Nat.lt_trichotomy a.toNat b.toNat with h | h | h
    · exact Or.inl (Or.inl h)
    · rcases chLe_total as bs with ih | ih
      · exact Or.inl (Or.inr ⟨h, ih⟩)
      · exact Or.inr (Or.inr ⟨h.symm, ih⟩)
    · exact Or.inr (Or.inl h)

theorem chLe_trans : ∀ as bs cs : List Char,
    chLe as bs = true → chLe bs cs = true → chLe as cs = true
  | [], _, _, _, _ => rfl
  | _ :: _, [], _, h1, _ => by simp [chLe] at h1
  | _ :: _, _ :: _, [], _, h2 => by simp [chLe] at h2
  | a :: as, b :: bs, c :: cs, h1, h2 => by
    rw [chLe_cons] at h1 h2 ⊢
    rcases h1 with h1 | ⟨h1e, h1r⟩ <;> rcases h2 with h2 | ⟨h2e, h2r⟩
    · exact Or.inl (Nat.lt_trans h1 h2)
    · exact Or.inl (h2e ▸ h1)
    · exact Or.inl (h1e ▸ h2)
    · exact Or.inr ⟨h1e.trans h2e, chLe_trans as bs cs h1r h2r⟩

theorem strLe_total (a b : String) : strLe a b = true ∨ strLe b a = true :=
  chLe_total a.data b.data

theorem strLe_trans {a b c : String} (h1 : strLe a b = true)
    (h2 : strLe b c = true) : strLe a c = true :=
  chLe_trans a.data b.data c.data h1 h2

/-! ### Counting lemmas for the group-by reduction -/

theorem sum_map_add {α : Type} (f g : α → Nat) (l : List α) :
    (l.map fun a => f a + g a).sum = (l.map f).sum + (l.map g).sum := by
  induction l with
  | nil => rfl
  | cons a t ih =>
    simp only [List.map_cons, List.sum_cons, ih]
    omega

theorem sum_indicator_not_mem {K : Type} [DecidableEq K] (k0 : K) :
    ∀ ks : List K, k0 ∉ ks →
      (ks.map fun k => if k0 = k then (1 : Nat) else 0).sum = 0 := by
  intro ks
  induction ks with
  | nil => intro _; rfl
  | cons a t ih =>
    intro hmem
    have hne : k0 ≠ a := fun h => hmem (by rw [h]; exact List.mem_cons_self a t)
    have hnt : k0 ∉ t := fun h => hmem (List.mem_cons_of_mem a h)
    simp [hne, ih hnt]

theorem sum_indicator_mem {K : Type} [DecidableEq K] (k0 : K) :
    ∀ ks : List K, ks.Nodup → k0 ∈ ks →
      (ks.map fun k => if k0 = k then (1 : Nat) else 0).sum = 1 := by
  intro ks
  induction ks with
  | nil => intro _ h; cases h
  | cons a t ih =>
    intro hnd hmem
    rcases List.mem_cons.mp hmem with rfl | hmt
    · have hnin : k0 ∉ t := (List.nodup_cons.mp hnd).1
      simp [sum_indicator_not_mem k0 t hnin]
    · have hne : k0 ≠ a := by
        intro he
        subst he
        exact (List.nodup_cons.mp hnd).1 hmt
      simp [hne, ih (List.nodup_cons.mp hnd).2 hmt]

theorem sum_group_counts {K : Type} [DecidableEq K] (f : Row → Option K)
    (ks : List K) (hnd : ks.Nodup) :
    ∀ df : List Row, (∀ r ∈ df, ∀ k, f r = some k → k ∈ ks) →
      (ks.map fun k =>
          (df.filter fun r => decide (f r = some k)).length).sum
        = (df.filter fun r => (f r).isSome).length := by
  intro df
  induction df with
  | nil => intro _; simp
  | cons r t ih =>
    intro hcov
    have htail : ∀ x ∈ t, ∀ k, f x = some k → k ∈ ks := fun x hx =>
      hcov x (List.mem_cons_of_mem _ hx)
    have hterm : ∀ k : K,
        ((r :: t).filter fun x => decide (f x = some k)).length
          = (if f r = some k then 1 else 0)
            + (t.filter fun x => decide (f x = some k)).length := by
      intro k
      by_cases hk : f r = some k
      · simp [List.filter_cons, hk]
        omega
      · simp [List.filter_cons, hk]
    simp only [hterm]
    rw [sum_map_add, ih htail]
    rcases hfr : f r with _ | k0
    · have hzero : (ks.map fun k =>
          if (none : Option K) = some k then (1 : Nat) else 0).sum = 0 := by
        apply List.sum_eq_zero
        intro x hx
        rcases List.mem_map.mp hx with ⟨k, _, rfl⟩
        simp
      rw [hzero]
      simp [List.filter_cons, hfr]
    · have hrw : (fun k : K => if some k0 = some k then (1 : Nat) else 0)
          = fun k : K => if k0 = k then (1 : Nat) else 0 := by
        funext k
        simp
      rw [hrw, sum_indicator_mem k0 ks hnd
        (hcov r (List.mem_cons_self r t) k0 hfr)]
      simp [List.filter_cons, hfr]
      omega

theorem sum_counts_over_keys {K : Type} [DecidableEq K] (f : Row → Option K)
    (df : List Row) {ks : List K}
    (hperm : List.Perm ks (df.filterMap f).dedup) :
    (ks.map fun k => (df.filter fun r => decide (f r = some k)).length).sum
      = (df.filter fun r => (f r).isSome).length := by
  rw [(hperm.map fun k =>
    (df.filter fun r => decide (f r = some k)).length).sum_eq]
  apply sum_group_counts f _ (List.nodup_dedup _) df
  intro r hr k hk
  exact List.mem_dedup.mpr (List.mem_filterMap.mpr ⟨r, hr, hk⟩)

/-! ### The activity-count partition, one lemma per report -/

theorem shoe_summary_count_sum (df : List Row)
    (gi : Option (List (String × String))) :
    ((get_shoe_summary df gi).map fun s => s.activity_count).sum
      = (df.filter fun r => (keyG r).isSome).length := by
  cases df with
  | nil => simp [get_shoe_summary]
  | cons r t =>
    rw [get_shoe_summary, if_neg (by simp)]
    rw [List.map_map]
    exact sum_counts_over_keys keyG (r :: t) (sortB_perm strLe _)

theorem weekly_count_sum (df : List Row)
    (gi : Option (List (String × String))) :
    ((get_weekly_report df gi).map fun p => p.activity_count).sum
      = (df.filter fun r => (keyW r).isSome).length := by
  cases df with
  | nil => simp [get_weekly_report]
  | cons r t =>
    rw [get_weekly_report, if_neg (by simp)]
    rw [((sortB_perm bucketDescB _).map fun p => p.activity_count).sum_eq]
    rw [List.map_map]
    exact sum_counts_over_keys keyW (r :: t) (sortB_perm pairLeSS _)

theorem monthly_count_sum (df : List Row)
    (gi : Option (List (String × String))) :
    ((get_monthly_report df gi).map fun p => p.activity_count).sum
      = (df.filter fun r => (keyM r).isSome).length := by
  cases df with
  | nil => simp [get_monthly_report]
  | cons r t =>
    rw [get_monthly_report, if_neg (by simp)]
    rw [((sortB_perm bucketDescB _).map fun p => p.activity_count).sum_eq]
    rw [List.map_map]
    exact sum_counts_over_keys keyM (r :: t) (sortB_perm pairLeSS _)

theorem yearly_count_sum (df : List Row)
    (gi : Option (List (String × String))) :
    ((get_yearly_report df gi).map fun y => y.activity_count).sum
      = (df.filter fun r => (keyY r).isSome).length := by
  cases df with
  | nil => simp [get_yearly_report]
  | cons r t =>
    rw [get_yearly_report, if_neg (by simp)]
    rw [((sortB_perm yearDescB _).map fun y => y.activity_count).sum_eq]
    rw [List.map_map]
    exact sum_counts_over_keys keyY (r :: t) (sortB_perm pairLeNS _)

/-! ### Destructing membership in a report -/

theorem mem_shoe_summary {df : List Row}
    {gi : Option (List (String × String))} {s : SummaryRow}
    (hs : s ∈ get_shoe_summary df gi) :
    ∃ g, g ∈ df.filterMap keyG ∧ s = summaryRow df gi g := by
  cases df with
  | nil => simp [get_shoe_summary] at hs
  | cons r t =>
    rw [get_shoe_summary, if_neg (by simp)] at hs
    rcases List.mem_map.mp hs with ⟨g, hg, he⟩
    exact ⟨g, List.mem_dedup.mp (((sortB_perm strLe _).mem_iff).mp hg),
      he.symm⟩

theorem mem_weekly_report {df : List Row}
    {gi : Option (List (String × String))} {p : PeriodRow}
    (hp : p ∈ get_weekly_report df gi) :
    ∃ k, k ∈ df.filterMap keyW ∧ p = weeklyRow df gi k := by
  cases df with
  | nil => simp [get_weekly_report] at hp
  | cons r t =>
    rw [get_weekly_report, if_neg (by simp)] at hp
    have hp2 := ((sortB_perm bucketDescB _).mem_iff).mp hp
    rcases List.mem_map.mp hp2 with ⟨k, hk, he⟩
    exact ⟨k, List.mem_dedup.mp (((sortB_perm pairLeSS _).mem_iff).mp hk),
      he.symm⟩

theorem mem_monthly_report {df : List Row}
    {gi : Option (List (String × String))} {p : PeriodRow}
    (hp : p ∈ get_monthly_report df gi) :
    ∃ k, k ∈ df.filterMap keyM ∧ p = monthlyRow df gi k := by
  cases df with
  | nil => simp [get_monthly_report] at hp
  | cons r t =>
    rw [get_monthly_report, if_neg (by simp)] at hp
    have hp2 := ((sortB_perm bucketDescB _).mem_iff).mp hp
    rcases List.mem_map.mp hp2 with ⟨k, hk, he⟩
    exact ⟨k, List.mem_dedup.mp (((sortB_perm pairLeSS _).mem_iff).mp hk),
      he.symm⟩

theorem mem_yearly_report {df : List Row}
    {gi : Option (List (String × String))} {y : YearRow}
    (hy : y ∈ get_yearly_report df gi) :
    ∃ k, k ∈ df.filterMap keyY ∧ y = yearlyRow df gi k := by
  cases df with
  | nil => simp [get_yearly_report] at hy
  | cons r t =>
    rw [get_yearly_report, if_neg (by simp)] at hy
    have hy2 := ((sortB_perm yearDescB _).mem_iff).mp hy
    rcases List.mem_map.mp hy2 with ⟨k, hk, he⟩
    exact ⟨k, List.mem_dedup.mp (((sortB_perm pairLeNS _).mem_iff).mp hk),
      he.symm⟩

/-! ### The gear component of each composite key -/

theorem keyW_gear {r : Row} {k : String × String} (h : keyW r = some k) :
    r.gear_id = some k.2 := by
  unfold keyW at h
  rcases hw : r.year_week with _ | w <;> rw [hw] at h
  · cases h
  · rcases hg : r.gear_id with _ | g <;> rw [hg] at h
    · cases h
    · injection h with h2
      subst h2
      rfl

theorem keyM_gear {r : Row} {k : String × String} (h : keyM r = some k) :
    r.gear_id = some k.2 := by
  unfold keyM at h
  rcases hw : r.year_month with _ | m <;> rw [hw] at h
  · cases h
  · rcases hg : r.gear_id with _ | g <;> rw [hg] at h
    · cases h
    · injection h with h2
      subst h2
      rfl

theorem keyY_gear {r : Row} {k : Nat × String} (h : keyY r = some k) :
    r.gear_id = some k.2 := by
  unfold keyY at h
  rcases hw : r.year with _ | y <;> rw [hw] at h
  · cases h
  · rcases hg : r.gear_id with _ | g <;> rw [hg] at h
    · cases h
    · injection h with h2
      subst h2
      rfl

/-- A normalized row never carries an empty-string gear id (the normalizer
maps falsy gear ids to null). -/
theorem normalizeOne_gear_ne {a : RawActivity} {g : String}
    (h : (normalizeOne a).gear_id = some g) : g ≠ "" := by
  dsimp [normalizeOne] at h
  rcases hg : a.gear_id with _ | ga <;> rw [hg] at h
  · cases h
  · have h2 : (if ga = "" then none else some ga) = some g := h
    by_cases he : ga = ""
    · rw [if_pos he] at h2
      cases h2
    · rw [if_neg he] at h2
      injection h2 with h3
      subst h3
      exact he

theorem row_gear_ne {acts : List RawActivity} {r : Row} {g : String}
    (hr : r ∈ activities_to_dataframe acts) (h : r.gear_id = some g) :
    g ≠ "" := by
  rcases List.mem_map.mp hr with ⟨a, _, rfl⟩
  exact normalizeOne_gear_ne h

/-! ### Name resolution against the spec's rule -/

/-- Modelled from the spec's equipment-name-resolution rule (amended to the
truthiness test the code performs): a non-empty directory resolves a mapped
gear id to its entry and an unmapped one to "Unknown Shoe"; with no
directory, or an empty one, the name is synthesized as "Shoe {gear_id}"
(group keys are never null, since null-key rows are dropped). -/
def shoeNameSpec (gi : Option (List (String × String))) (g : String) :
    String :=
  match gi with
  | some d =>
    if d = [] then "Shoe " ++ g
    else
      match d.lookup g with
      | some n => n
      | none => "Unknown Shoe"
  | none => "Shoe " ++ g

theorem resolveShoeName_eq_spec (gi : Option (List (String × String)))
    {g : String} (hg : g ≠ "") :
    resolveShoeName gi g = shoeNameSpec gi g := by
  cases gi with
  | none => simp [resolveShoeName, truthyDir, shoeNameSpec, synthName, hg]
  | some d =>
    by_cases hd : d = []
    · subst hd
      simp [resolveShoeName, truthyDir, shoeNameSpec, synthName, hg]
    · have hne : d.isEmpty = false := by
        cases d with
        | nil => exact absurd rfl hd
        | cons x xs => rfl
      simp [resolveShoeName, truthyDir, shoeNameSpec, hne, hd]

/-! ### Totality and transitivity of the descending sort orders -/

theorem bucketDescB_total (a b : PeriodRow) :
    bucketDescB a b = true ∨ bucketDescB b a = true :=
  strLe_total b.bucket a.bucket

theorem bucketDescB_trans (a b c : PeriodRow) :
    bucketDescB a b = true → bucketDescB b c = true →
      bucketDescB a c = true :=
  fun h1 h2 => strLe_trans h2 h1

theorem yearDescB_total (a b : YearRow) :
    yearDescB a b = true ∨ yearDescB b a = true := by
  unfold yearDescB
  rcases Nat.le_total b.year a.year with h | h
  · exact Or.inl (decide_eq_true h)
  · exact Or.inr (decide_eq_true h)

theorem yearDescB_trans (a b c : YearRow) :
    yearDescB a b = true → yearDescB b c = true → yearDescB a c = true := by
  unfold yearDescB
  intro h1 h2
  exact decide_eq_true (Nat.le_trans (of_decide_eq_true h2)
    (of_decide_eq_true h1))

theorem dateDescB_total (a b : ActivityRow) :
    dateDescB a b = true ∨ dateDescB b a = true := by
  unfold dateDescB
  rcases a.date with _ | x <;> rcases b.date with _ | y <;> simp
  exact Nat.le_total (dtKey y) (dtKey x)

theorem dateDescB_trans (a b c : ActivityRow) :
    dateDescB a b = true → dateDescB b c = true → dateDescB a c = true := by
  unfold dateDescB
  rcases a.date with _ | x <;> rcases b.date with _ | y <;>
    rcases c.date with _ | z <;> simp
  exact fun h1 h2 => Nat.le_trans h2 h1

/-! ### Shape of a rounded value -/

theorem round2_shape (q : ℚ) : ∃ n : ℤ, round2 q = (n : ℚ) / 100 :=
  ⟨roundHalfEven (100 * q), rfl⟩

/-! ### Concrete fixtures -/

/-- Monday 2024-01-15, 10:00. -/
def dtJan15 : DateTime := ⟨2024, 1, 15, 10, 0, 0⟩

/-- Tuesday 2024-01-16, 9:00. -/
def dtJan16 : DateTime := ⟨2024, 1, 16, 9, 0, 0⟩

/-- A run on gear "g1": 10000 m, 3600 s moving, 100 m elevation. -/
def actG1 : RawActivity :=
  { id := 1, name := some "Morning Run", type := some "Run",
    start_date_local := some dtJan15, distance := some 10000,
    moving_time := some 3600, elapsed_time := some 3700,
    total_elevation_gain := some 100, gear_id := some "g1" }

/-- A run on gear "g2": 5000 m, 1800 s moving, 50 m elevation. -/
def actG2 : RawActivity :=
  { id := 2, name := some "Evening Run", type := some "Run",
    start_date_local := some dtJan16, distance := some 5000,
    moving_time := some 1800, elapsed_time := some 1900,
    total_elevation_gain := some 50, gear_id := some "g2" }

/-- An activity with no equipment: 5000 m. -/
def actNull1 : RawActivity :=
  { id := 3, name := some "Walk", type := some "Walk",
    start_date_local := some dtJan15, distance := some 5000,
    moving_time := some 3600, elapsed_time := some 3600,
    total_elevation_gain := some 10, gear_id := none }

/-- A second activity with no equipment: 7000 m. -/
def actNull2 : RawActivity :=
  { id := 4, name := some "Hike", type := some "Hike",
    start_date_local := some dtJan16, distance := some 7000,
    moving_time := some 7200, elapsed_time := some 7300,
    total_elevation_gain := some 200, gear_id := none }

/-! ### Claims -/

/-- C1: the claim (and the spec's scenario) says two null-gear activities
yield one "No Shoe" summary row with `activity_count` 2.  The code's
`groupby('gear_id')` keeps pandas' default `dropna=True` and therefore
drops every null-gear row: both rows are present in the normalized frame,
yet the shoe summary comes back empty, and the code's own `'No Shoe'`
labelling branch is unreachable in the grouped reports. -/
theorem C1_null_gear_rows_dropped :
    (activities_to_dataframe [actNull1, actNull2]).length = 2
  ∧ (∀ r ∈ activities_to_dataframe [actNull1, actNull2], r.gear_id = none)
  ∧ get_shoe_summary (activities_to_dataframe [actNull1, actNull2]) none
      = [] := by
  refine ⟨rfl, by decide, by with_unfolding_all decide⟩

/-- C2: for a non-empty input, in each of the four grouped reports the
`activity_count` fields sum to the number of normalized rows whose
grouping key for that report is defined (non-null in every component). -/
theorem C2_activity_count_partition (acts : List RawActivity)
    (gi : Option (List (String × String))) (_hne : acts ≠ []) :
    (((get_shoe_summary (activities_to_dataframe acts) gi).map
          fun s => s.activity_count).sum
        = ((activities_to_dataframe acts).filter
            fun r => (keyG r).isSome).length)
  ∧ (((get_weekly_report (activities_to_dataframe acts) gi).map
          fun p => p.activity_count).sum
        = ((activities_to_dataframe acts).filter
            fun r => (keyW r).isSome).length)
  ∧ (((get_monthly_report (activities_to_dataframe acts) gi).map
          fun p => p.activity_count).sum
        = ((activities_to_dataframe acts).filter
            fun r => (keyM r).isSome).length)
  ∧ (((get_yearly_report (activities_to_dataframe acts) gi).map
          fun y => y.activity_count).sum
        = ((activities_to_dataframe acts).filter
            fun r => (keyY r).isSome).length) :=
  ⟨shoe_summary_count_sum _ gi, weekly_count_sum _ gi,
   monthly_count_sum _ gi, yearly_count_sum _ gi⟩

/-- Witness for C2 at a concrete mixed input (one geared activity, one
null-gear activity). -/
theorem C2_activity_count_partition_witness :
    ([actG1, actNull1] : List RawActivity) ≠ []
  ∧ ((((get_shoe_summary (activities_to_dataframe [actG1, actNull1]) none).map
          fun s => s.activity_count).sum
        = ((activities_to_dataframe [actG1, actNull1]).filter
            fun r => (keyG r).isSome).length)
    ∧ (((get_weekly_report (activities_to_dataframe [actG1, actNull1]) none).map
          fun p => p.activity_count).sum
        = ((activities_to_dataframe [actG1, actNull1]).filter
            fun r => (keyW r).isSome).length)
    ∧ (((get_monthly_report (activities_to_dataframe [actG1, actNull1]) none).map
          fun p => p.activity_count).sum
        = ((activities_to_dataframe [actG1, actNull1]).filter
            fun r => (keyM r).isSome).length)
    ∧ (((get_yearly_report (activities_to_dataframe [actG1, actNull1]) none).map
          fun y => y.activity_count).sum
        = ((activities_to_dataframe [actG1, actNull1]).filter
            fun r => (keyY r).isSome).length)) :=
  ⟨by decide, C2_activity_count_partition [actG1, actNull1] none (by decide)⟩

/-- C4: the empty input normalizes to the empty frame and every report
method returns an empty result. -/
theorem C4_empty_input_all_reports_empty
    (gi : Option (List (String × String))) (g : Option String) :
    get_shoe_summary (activities_to_dataframe []) gi = []
  ∧ get_weekly_report (activities_to_dataframe []) gi = []
  ∧ get_monthly_report (activities_to_dataframe []) gi = []
  ∧ get_yearly_report (activities_to_dataframe []) gi = []
  ∧ get_activities_by_shoe (activities_to_dataframe []) g = [] :=
  ⟨rfl, rfl, rfl, rfl, rfl⟩

/-- C5: normalization yields exactly one row per input record, positionally
(same order, no filtering, no deduplication). -/
theorem C5_normalization_one_row_per_input (acts : List RawActivity) :
    (activities_to_dataframe acts).length = acts.length
  ∧ ∀ i : Nat,
      (activities_to_dataframe acts)[i]? = acts[i]?.map normalizeOne := by
  constructor
  · simp [activities_to_dataframe]
  · intro i
    simp [activities_to_dataframe]

/-- C8: every report call leaves the analyzer state unchanged, and a second
call with the same arguments returns the identical result. -/
theorem C8_report_calls_no_mutation (a : ActivityAnalyzer)
    (gi : Option (List (String × String))) (g : Option String) :
    ((a.shoeSummaryCall gi).2 = a
      ∧ ((a.shoeSummaryCall gi).2.shoeSummaryCall gi).1
          = (a.shoeSummaryCall gi).1)
  ∧ ((a.weeklyCall gi).2 = a
      ∧ ((a.weeklyCall gi).2.weeklyCall gi).1 = (a.weeklyCall gi).1)
  ∧ ((a.monthlyCall gi).2 = a
      ∧ ((a.monthlyCall gi).2.monthlyCall gi).1 = (a.monthlyCall gi).1)
  ∧ ((a.yearlyCall gi).2 = a
      ∧ ((a.yearlyCall gi).2.yearlyCall gi).1 = (a.yearlyCall gi).1)
  ∧ ((a.activitiesByShoeCall g).2 = a
      ∧ ((a.activitiesByShoeCall g).2.activitiesByShoeCall g).1
          = (a.activitiesByShoeCall g).1) :=
  ⟨⟨rfl, rfl⟩, ⟨rfl, rfl⟩, ⟨rfl, rfl⟩, ⟨rfl, rfl⟩, ⟨rfl, rfl⟩⟩

/-- C10: a supplied-but-empty directory is falsy under the code's
`if gear_info:` test, so every grouped report behaves exactly as if no
directory had been passed (names are synthesized, never "Unknown Shoe"). -/
theorem C10_empty_directory_like_none (df : List Row) :
    get_shoe_summary df (some []) = get_shoe_summary df none
  ∧ get_weekly_report df (some []) = get_weekly_report df none
  ∧ get_monthly_report df (some []) = get_monthly_report df none
  ∧ get_yearly_report df (some []) = get_yearly_report df none :=
  ⟨rfl, rfl, rfl, rfl⟩

/-- C3 fails as stated: "g1" is non-null and not a key of the supplied
(empty) directory, so the claim requires "Unknown Shoe", but the code
tests the directory for truthiness and synthesizes "Shoe g1". -/
theorem C3_empty_directory_counterexample :
    (get_shoe_summary (activities_to_dataframe [actG1]) (some [])).map
        (fun s => s.shoe_name) = ["Shoe g1"]
  ∧ "Shoe g1" ≠ "Unknown Shoe" := by
  refine ⟨by with_unfolding_all decide, by decide⟩

/-- C3 (amended: a supplied empty directory behaves like no directory):
every group row of every report resolves its shoe name by the spec rule
`shoeNameSpec`. -/
theorem C3_shoe_name_resolution (acts : List RawActivity)
    (gi : Option (List (String × String))) :
    (∀ s ∈ get_shoe_summary (activities_to_dataframe acts) gi,
        s.shoe_name = shoeNameSpec gi s.gear_id)
  ∧ (∀ p ∈ get_weekly_report (activities_to_dataframe acts) gi,
        p.shoe_name = shoeNameSpec gi p.gear_id)
  ∧ (∀ p ∈ get_monthly_report (activities_to_dataframe acts) gi,
        p.shoe_name = shoeNameSpec gi p.gear_id)
  ∧ (∀ y ∈ get_yearly_report (activities_to_dataframe acts) gi,
        y.shoe_name = shoeNameSpec gi y.gear_id) := by
  refine ⟨?_, ?_, ?_, ?_⟩
  · intro s hs
    rcases mem_shoe_summary hs with ⟨g, hg, rfl⟩
    have hne : g ≠ "" := by
      rcases List.mem_filterMap.mp hg with ⟨r, hr, hk⟩
      exact row_gear_ne hr hk
    exact resolveShoeName_eq_spec gi hne
  · intro p hp
    rcases mem_weekly_report hp with ⟨k, hk, rfl⟩
    have hne : k.2 ≠ "" := by
      rcases List.mem_filterMap.mp hk with ⟨r, hr, hkk⟩
      exact row_gear_ne hr (keyW_gear hkk)
    exact resolveShoeName_eq_spec gi hne
  · intro p hp
    rcases mem_monthly_report hp with ⟨k, hk, rfl⟩
    have hne : k.2 ≠ "" := by
      rcases List.mem_filterMap.mp hk with ⟨r, hr, hkk⟩
      exact row_gear_ne hr (keyM_gear hkk)
    exact resolveShoeName_eq_spec gi hne
  · intro y hy
    rcases mem_yearly_report hy with ⟨k, hk, rfl⟩
    have hne : k.2 ≠ "" := by
      rcases List.mem_filterMap.mp hk with ⟨r, hr, hkk⟩
      exact row_gear_ne hr (keyY_gear hkk)
    exact resolveShoeName_eq_spec gi hne

/-- The summary row produced for `actG1` under the directory
`{"g1": "Shoe A"}`. -/
def sRowG1 : SummaryRow :=
  { shoe_name := "Shoe A", gear_id := "g1", total_distance_km := 10,
    total_moving_time_hours := 1, total_elevation_gain_m := 100,
    activity_count := 1 }

/-- Witness for the amended C3 at a concrete directory lookup. -/
theorem C3_shoe_name_resolution_witness :
    sRowG1 ∈ get_shoe_summary (activities_to_dataframe [actG1])
        (some [("g1", "Shoe A")])
  ∧ sRowG1.shoe_name
      = shoeNameSpec (some [("g1", "Shoe A")]) sRowG1.gear_id :=
  ⟨by with_unfolding_all decide,
   (C3_shoe_name_resolution [actG1] (some [("g1", "Shoe A")])).1 sRowG1
     (by with_unfolding_all decide)⟩

/-- C6 fails as stated for the empty-string gear id: `if gear_id:` treats
`""` as falsy, so the filter is skipped and the g1 row is returned, even
though no normalized row's equipment identifier equals `""`. -/
theorem C6_empty_gear_id_counterexample :
    (get_activities_by_shoe (activities_to_dataframe [actG1])
        (some "")).length = 1
  ∧ ((activities_to_dataframe [actG1]).filter
        fun r => r.gear_id == some "").length = 0 := by
  refine ⟨by with_unfolding_all decide, by decide⟩

/-- With a non-empty requested gear id and a non-empty frame,
`get_activities_by_shoe` is the date-descending sort of the projected
equality-filtered rows. -/
theorem get_activities_by_shoe_some_ne {df : List Row} {g : String}
    (hg : g ≠ "") (hd : df ≠ []) :
    get_activities_by_shoe df (some g)
      = sortB dateDescB
          ((df.filter fun r => r.gear_id == some g).map projectActivity) := by
  have htr : truthyStr (some g) = true := by
    simp [truthyStr, hg]
  cases df with
  | nil => exact absurd rfl hd
  | cons r t =>
    rw [get_activities_by_shoe, if_neg (by simp), htr]
    rfl

/-- C6 (amended to non-empty supplied gear ids, which is what the code's
truthiness test distinguishes): the result is a permutation of the
projection of exactly the rows whose equipment identifier equals the
requested one, sorted by date descending with null dates last. -/
theorem C6_activities_by_shoe_filter_and_sort (df : List Row) (g : String)
    (hg : g ≠ "") :
    List.Perm (get_activities_by_shoe df (some g))
        ((df.filter fun r => r.gear_id == some g).map projectActivity)
  ∧ List.Sorted (fun a b => dateDescB a b = true)
      (get_activities_by_shoe df (some g)) := by
  cases df with
  | nil => exact ⟨List.Perm.refl _, List.sorted_nil⟩
  | cons r t =>
    rw [get_activities_by_shoe_some_ne hg (List.cons_ne_nil r t)]
    exact ⟨sortB_perm _ _,
      sortB_sorted dateDescB dateDescB_total dateDescB_trans _⟩

/-- Witness for the amended C6 on a frame with rows for g1 and g2. -/
theorem C6_activities_by_shoe_witness :
    "g1" ≠ ""
  ∧ (List.Perm
        (get_activities_by_shoe (activities_to_dataframe [actG1, actG2])
          (some "g1"))
        (((activities_to_dataframe [actG1, actG2]).filter
            fun r => r.gear_id == some "g1").map projectActivity)
    ∧ List.Sorted (fun a b => dateDescB a b = true)
        (get_activities_by_shoe (activities_to_dataframe [actG1, actG2])
          (some "g1"))) :=
  ⟨by decide,
   C6_activities_by_shoe_filter_and_sort (activities_to_dataframe
     [actG1, actG2]) "g1" (by decide)⟩

/-- C7: the weekly and monthly reports are non-increasing in their bucket
label (code-point lexicographic order on the "YYYY-W##" / "YYYY-MM"
strings) across rows, and the yearly report is non-increasing in the
year. -/
theorem C7_reports_sorted_descending (df : List Row)
    (gi : Option (List (String × String))) :
    List.Sorted (fun a b : PeriodRow => strLe b.bucket a.bucket = true)
        (get_weekly_report df gi)
  ∧ List.Sorted (fun a b : PeriodRow => strLe b.bucket a.bucket = true)
        (get_monthly_report df gi)
  ∧ List.Sorted (fun a b : YearRow => b.year ≤ a.year)
      (get_yearly_report df gi) := by
  refine ⟨?_, ?_, ?_⟩
  · cases df with
    | nil => exact List.sorted_nil
    | cons r t =>
      rw [get_weekly_report, if_neg (by simp)]
      exact sortB_sorted bucketDescB bucketDescB_total bucketDescB_trans _
  · cases df with
    | nil => exact List.sorted_nil
    | cons r t =>
      rw [get_monthly_report, if_neg (by simp)]
      exact sortB_sorted bucketDescB bucketDescB_total bucketDescB_trans _
  · cases df with
    | nil => exact List.sorted_nil
    | cons r t =>
      rw [get_yearly_report, if_neg (by simp)]
      exact List.Pairwise.imp (fun h => of_decide_eq_true h)
        (sortB_sorted yearDescB yearDescB_total yearDescB_trans _)

/-- C9: every summed numeric output field of every report row is an
integer multiple of 1/100 — the group's exact sum rounded to two decimal
places (the Python floats are modelled as exact rationals). -/
theorem C9_sums_rounded_to_two_decimals (df : List Row)
    (gi : Option (List (String × String))) :
    (∀ s ∈ get_shoe_summary df gi,
        (∃ n : ℤ, s.total_distance_km = (n : ℚ) / 100)
      ∧ (∃ n : ℤ, s.total_moving_time_hours = (n : ℚ) / 100)
      ∧ (∃ n : ℤ, s.total_elevation_gain_m = (n : ℚ) / 100))
  ∧ (∀ p ∈ get_weekly_report df gi,
        (∃ n : ℤ, p.distance_km = (n : ℚ) / 100)
      ∧ (∃ n : ℤ, p.moving_time_hours = (n : ℚ) / 100)
      ∧ (∃ n : ℤ, p.elevation_gain_m = (n : ℚ) / 100))
  ∧ (∀ p ∈ get_monthly_report df gi,
        (∃ n : ℤ, p.distance_km = (n : ℚ) / 100)
      ∧ (∃ n : ℤ, p.moving_time_hours = (n : ℚ) / 100)
      ∧ (∃ n : ℤ, p.elevation_gain_m = (n : ℚ) / 100))
  ∧ (∀ y ∈ get_yearly_report df gi,
        (∃ n : ℤ, y.distance_km = (n : ℚ) / 100)
      ∧ (∃ n : ℤ, y.moving_time_hours = (n : ℚ) / 100)
      ∧ (∃ n : ℤ, y.elevation_gain_m = (n : ℚ) / 100)) := by
  refine ⟨?_, ?_, ?_, ?_⟩
  · intro s hs
    rcases mem_shoe_summary hs with ⟨g, _, rfl⟩
    exact ⟨round2_shape _, round2_shape _, round2_shape _⟩
  · intro p hp
    rcases mem_weekly_report hp with ⟨k, _, rfl⟩
    exact ⟨round2_shape _, round2_shape _, round2_shape _⟩
  · intro p hp
    rcases mem_monthly_report hp with ⟨k, _, rfl⟩
    exact ⟨round2_shape _, round2_shape _, round2_shape _⟩
  · intro y hy
    rcases mem_yearly_report hy with ⟨k, _, rfl⟩
    exact ⟨round2_shape _, round2_shape _, round2_shape _⟩

/-- Witness for C9 on the concrete summary row of `actG1`. -/
theorem C9_sums_rounded_witness :
    sRowG1 ∈ get_shoe_summary (activities_to_dataframe [actG1])
        (some [("g1", "Shoe A")])
  ∧ ((∃ n : ℤ, sRowG1.total_distance_km = (n : ℚ) / 100)
    ∧ (∃ n : ℤ, sRowG1.total_moving_time_hours = (n : ℚ) / 100)
    ∧ (∃ n : ℤ, sRowG1.total_elevation_gain_m = (n : ℚ) / 100)) :=
  ⟨by with_unfolding_all decide,
   (C9_sums_rounded_to_two_decimals (activities_to_dataframe [actG1])
     (some [("g1", "Shoe A")])).1 sRowG1 (by with_unfolding_all decide)⟩
